import Mathlib

/-!
# Client-side controller of the video analysis page (`UI(Frontend)/app.js`)

A shallow embedding of the script: the module-level variable `selectedFile`, the
properties of the document elements the script reads and writes, the helper
functions (`setLoading`, `showError`, `clearError`, `addLogEntry`,
`updateLiveStatus`) and the three event handlers.  The `async` click handler is
split at its first `await` into the part that runs synchronously when the button
is clicked and the continuation that runs when the request settles.
-/

namespace MobViolence

/-! ## Values -/

/-- The file object handed over by the file input: only its name is read by the script. -/
structure File where
  name : String
  size : Nat
deriving DecidableEq, Repr

/-- Exact value of a JavaScript Number.  A finite double is `mant * 2 ^ exp`, negated when
`neg` is set (so `-0` is `finite true 0 0`). -/
inductive JSNumber where
  | finite (neg : Bool) (mant : Nat) (exp : Int)
  | infinite (neg : Bool)
  | nan

/-- The values `res.json()` can resolve to, together with `undefined` (the value of a
missing property). -/
inductive JSVal where
  | undefined
  | null
  | bool (b : Bool)
  | number (x : JSNumber)
  | string (s : String)
  | array (items : List JSVal)
  | object (props : List (String × JSVal))

/-- What a `throw` or a rejected promise carries into the `catch` block. -/
inductive Thrown where
  | typeError
  | rejection
  | error (message : String)
deriving DecidableEq, Repr

/-- Built-in of the host that is used but not modelled digit by digit:
`Number::toString`, which `toFixed` falls back to for values of magnitude `10^21` and above. -/
structure Host where
  numberToString : JSNumber → String

/-- The response object `fetch` resolves to.  `text` and `json` are what `res.text()` and
`res.json()` resolve to, `none` when that promise rejects (for `json`: the body does not
parse). -/
structure Response where
  status : Nat
  text : Option String
  json : Option JSVal

/-- The getter `res.ok`: the status is in the range 200-299. -/
def Response.ok (res : Response) : Bool :=
  decide (200 ≤ res.status) && decide (res.status ≤ 299)

/-- How the promise returned by `fetch` settles. -/
inductive FetchResult where
  | rejected
  | resolved (res : Response)

/-- Property read `v.key` for a key that no built-in prototype defines (`probability`,
`label`): a `TypeError` on `null` and `undefined`, the own property of an object, and
`undefined` otherwise. -/
def getProp (v : JSVal) (key : String) : Except Thrown JSVal :=
  match v with
  | .undefined => .error .typeError
  | .null => .error .typeError
  | .object props => .ok ((props.lookup key).getD .undefined)
  | _ => .ok .undefined

/-- Strict equality `v === str` against a string literal. -/
def strictEqString (v : JSVal) (str : String) : Bool :=
  match v with
  | .string s => s == str
  | _ => false

/-- The integer `n` for which `n / 10^f` is closest to `mant * 2^exp`, the larger one on a
tie (ECMA-262, Number.prototype.toFixed, step 11.a). -/
def roundScaled (mant : Nat) (exp : Int) (f : Nat) : Nat :=
  let num := mant * 2 ^ exp.toNat
  let den := 2 ^ (-exp).toNat
  (2 * num * 10 ^ f + den) / (2 * den)

/-- Decimal digits of `n` with a decimal point before the last `f` of them, padded with
leading zeros up to `f + 1` digits (ECMA-262, Number.prototype.toFixed, steps 11.b-11.c). -/
def fixedDigits (n f : Nat) : String :=
  let m := Nat.toDigits 10 n
  if f = 0 then String.mk m
  else
    let m := if m.length ≤ f then List.replicate (f + 1 - m.length) '0' ++ m else m
    String.mk (m.take (m.length - f) ++ '.' :: m.drop (m.length - f))

/-- The method `Number.prototype.toFixed(f)` for `0 ≤ f ≤ 100` (the script passes 2 and 3). -/
def toFixed (host : Host) (x : JSNumber) (f : Nat) : String :=
  match x with
  | .nan => "NaN"
  | .infinite false => "Infinity"
  | .infinite true => "-Infinity"
  | .finite neg mant exp =>
    let sign := if neg && decide (mant ≠ 0) then "-" else ""
    if mant * 2 ^ exp.toNat ≥ 10 ^ 21 * 2 ^ (-exp).toNat then
      sign ++ host.numberToString (.finite false mant exp)
    else
      sign ++ fixedDigits (roundScaled mant exp f) f

/-- The call `v.toFixed(f)`: only a Number has the method, on anything else the call throws
a `TypeError`. -/
def callToFixed (host : Host) (v : JSVal) (f : Nat) : Except Thrown String :=
  match v with
  | .number x => .ok (toFixed host x f)
  | _ => .error .typeError

/-! ## The page -/

/-- One `div.log-item` built by `addLogEntry`: the class name of its dot, the class name
and the text of its label, and the text of its time stamp. -/
structure LogItem where
  dotClass : String
  textClass : String
  text : String
  time : String
deriving DecidableEq, Repr

/-- A child of `#logList`: the `.log-empty` placeholder of the markup, or a log item. -/
inductive LogChild where
  | empty
  | item (i : LogItem)
deriving DecidableEq, Repr

/-- The state the script works on: its variable `selectedFile`, the element properties it
reads and writes (all the elements it looks up exist), what it wrote to the console, and
the requests it issued (`requests`, newest first) with the number of them that have not
settled yet (`pending`). -/
structure Page where
  selectedFile : Option File
  loaderHidden : Bool
  analyzeBtnDisabled : Bool
  uploadBtnDisabled : Bool
  fileNameLabel : String
  errorTextHidden : Bool
  errorText : String
  resultCardHidden : Bool
  resultLabel : String
  resultProb : String
  logList : List LogChild
  liveDotClasses : List String
  liveStatusText : String
  lastPredictionTime : String
  console : List Thrown
  requests : List File
  pending : Nat

/-- The log items of `#logList`, newest first (the placeholder is not an entry). -/
def history (s : Page) : List LogItem :=
  s.logList.filterMap fun c => match c with
    | .empty => none
    | .item i => some i

/-- The busy flag: the loader is showing. -/
def busy (s : Page) : Bool := !s.loaderHidden

/-- The analyze button can be clicked. -/
def analyzeEnabled (s : Page) : Bool := !s.analyzeBtnDisabled

/-- A file is selected (`selectedFile` is truthy). -/
def hasSelection (s : Page) : Bool := s.selectedFile.isSome

/-! ## Helpers of the script -/

/-- Function `setLoading(isLoading)`, lines 20-24. -/
def setLoading (isLoading : Bool) (s : Page) : Page :=
  { s with
    loaderHidden := !isLoading
    analyzeBtnDisabled := isLoading || !s.selectedFile.isSome
    uploadBtnDisabled := isLoading }

/-- Function `showError(msg)`, lines 26-29. -/
def showError (msg : String) (s : Page) : Page :=
  { s with errorTextHidden := false, errorText := msg }

/-- Function `clearError()`, lines 31-34. -/
def clearError (s : Page) : Page :=
  { s with errorTextHidden := true, errorText := "" }

/-- The lookup `logList.querySelector(".log-empty")` followed by `remove()` on the match: the first
placeholder among the children is taken out (log items contain no `.log-empty` element). -/
def removeLogEmpty : List LogChild → List LogChild
  | [] => []
  | .empty :: rest => rest
  | .item i :: rest => .item i :: removeLogEmpty rest

/-- The method `classList.remove(...tokens)`: every occurrence of the tokens goes. -/
def classListRemove (classes tokens : List String) : List String :=
  classes.filter fun c => !tokens.contains c

/-- The method `classList.add(token)`: the token is appended unless already there. -/
def classListAdd (classes : List String) (token : String) : List String :=
  if classes.contains token then classes else classes ++ [token]

/-- The `div.log-item` that `addLogEntry` builds, lines 46-69, from the decision
`isViolent`, the text of `prob.toFixed(2)` and the time. -/
def newLogItem (isViolent : Bool) (digits now : String) : LogItem :=
  { dotClass := "dot " ++ (if isViolent then "dot-violent" else "dot-safe")
    textClass := if isViolent then "log-label-violent" else "log-label-safe"
    text := if isViolent then "Violence detected (" ++ digits ++ ")"
            else "Safe (" ++ digits ++ ")"
    time := now }

/-- Function `addLogEntry(label, prob)`, lines 36-72; `now` is what
`new Date().toLocaleTimeString()` returns.  The result carries the exception when
`prob.toFixed(2)` throws, with the page as it is at that point. -/
def addLogEntry (host : Host) (label prob : JSVal) (now : String) (s : Page) :
    Page × Option Thrown :=
  let isViolent := strictEqString label "violent"
  let s1 := { s with logList := removeLogEmpty s.logList }
  match callToFixed host prob 2 with
  | .error e => (s1, some e)
  | .ok digits =>
    ({ s1 with logList := .item (newLogItem isViolent digits now) :: s1.logList }, none)

/-- Function `updateLiveStatus(label, prob)`, lines 74-86; `now` is what
`new Date().toLocaleTimeString()` returns. -/
def updateLiveStatus (host : Host) (label prob : JSVal) (now : String) (s : Page) :
    Page × Option Thrown :=
  let isViolent := strictEqString label "violent"
  let s1 := { s with
    liveDotClasses :=
      classListAdd (classListRemove s.liveDotClasses ["dot-safe", "dot-violent"])
        (if isViolent then "dot-violent" else "dot-safe") }
  match callToFixed host prob 2 with
  | .error e => (s1, some e)
  | .ok digits =>
    ({ s1 with
       liveStatusText := if isViolent then "Violence (" ++ digits ++ ")"
                         else "Safe (" ++ digits ++ ")"
       lastPredictionTime := now }, none)

/-! ## Event handlers -/

/-- The `change` handler of `#videoInput`, lines 94-107; `files` is `e.target.files`
(`none` for `null`). -/
def videoInputChange (files : Option (List File)) (s : Page) : Page :=
  match files with
  | none | some [] =>
    { s with
      selectedFile := none
      fileNameLabel := "No file selected"
      analyzeBtnDisabled := true }
  | some (f :: _) =>
    clearError
      { s with
        selectedFile := some f
        fileNameLabel := f.name
        analyzeBtnDisabled := false }

/-- The `click` handler of `#analyzeBtn` up to its first `await`, lines 109-125: the
selection guard, then `clearError()`, `setLoading(true)` and the `fetch` call, which
posts the selected file. -/
def analyzeBtnClick (s : Page) : Page :=
  match s.selectedFile with
  | none => showError "Please select a video file first." s
  | some f =>
    let s1 := setLoading true (clearError s)
    { s1 with requests := f :: s1.requests, pending := s1.pending + 1 }

/-- Lines 132-143: the statements of the `try` block after `res.json()` resolved to `data`.
`t1` and `t2` are the times read by `updateLiveStatus` and `addLogEntry`. -/
def presentResult (host : Host) (data : JSVal) (t1 t2 : String) (s : Page) :
    Page × Option Thrown :=
  match getProp data "probability" with
  | .error e => (s, some e)
  | .ok prob =>
    match getProp data "label" with
    | .error e => (s, some e)
    | .ok label =>
      let s1 := { s with
        resultCardHidden := false
        resultLabel := if strictEqString label "violent" then "Violent" else "Non-violent" }
      match callToFixed host prob 3 with
      | .error e => (s1, some e)
      | .ok digits =>
        let s2 := { s1 with resultProb := digits }
        match updateLiveStatus host label prob t1 s2 with
        | (s3, some e) => (s3, some e)
        | (s3, none) => addLogEntry host label prob t2 s3

/-- The `try` block, lines 121-143, from the point where the `fetch` promise settles. -/
def tryBlock (host : Host) (r : FetchResult) (t1 t2 : String) (s : Page) :
    Page × Option Thrown :=
  match r with
  | .rejected => (s, some .rejection)
  | .resolved res =>
    if !res.ok then
      match res.text with
      | none => (s, some .rejection)
      | some errText => (s, some (.error (if errText = "" then "Server error" else errText)))
    else
      match res.json with
      | none => (s, some .rejection)
      | some data => presentResult host data t1 t2 s

/-- The `catch` block (lines 144-147, entered when the `try` block threw) followed by the
`finally` block (lines 147-149), applied to the outcome of the `try` block. -/
def catchFinally (out : Page × Option Thrown) : Page :=
  match out with
  | (s1, some err) =>
    setLoading false
      (showError "Failed to analyze video. Check backend and try again."
        { s1 with console := err :: s1.console })
  | (s1, none) => setLoading false s1

/-- The rest of the `click` handler once the request settles, lines 122-149: the request
is no longer pending, then the `try` block runs, then `catch` and `finally`.  The handler
writes nothing to the page between `await fetch(...)` and the `await` of `res.text()` or
`res.json()`, so the continuation is one step that runs when the last of these promises
has settled. -/
def analyzeBtnResume (host : Host) (r : FetchResult) (t1 t2 : String) (s : Page) : Page :=
  catchFinally (tryBlock host r t1 t2 { s with pending := s.pending - 1 })

/-! ## The step relation -/

/-- What can happen to the page: the file input fires `change`, the analyze button is
clicked, a pending request settles. -/
inductive Event where
  | change (files : Option (List File))
  | click
  | settle (r : FetchResult) (t1 t2 : String)

/-- One event on the level of the handlers.  A disabled button dispatches no click, and a
request can only settle when one is pending; the `change` handler may run in any state
(also when the event is dispatched on `#videoInput` directly). -/
def step (host : Host) (s : Page) : Event → Option Page
  | .change files => some (videoInputChange files s)
  | .click => if s.analyzeBtnDisabled then none else some (analyzeBtnClick s)
  | .settle r t1 t2 =>
    if s.pending = 0 then none else some (analyzeBtnResume host r t1 t2 s)

/-- A sequence of events, oldest first. -/
def run (host : Host) (s : Page) : List Event → Option Page
  | [] => some s
  | e :: es => (step host s e).bind fun s1 => run host s1 es

/-- The `click` handler of `#uploadBtn`, lines 90-92: `videoInput.click()` opens the file
picker; nothing of the page is written. -/
def uploadBtnClick (s : Page) : Page := s

/-- One event as the page delivers it.  The script opens the file picker only in the click
handler of `#uploadBtn` (lines 90-92), and `setLoading` disables that button (line 23)
like the analyze button (line 22); a disabled button dispatches no click.  The picker is a
modal dialog, so the `change` event it fires is the next event of the page after the click
that opened it. -/
def pageStep (host : Host) (s : Page) : Event → Option Page
  | .change files =>
    if s.uploadBtnDisabled then none else some (videoInputChange files (uploadBtnClick s))
  | .click => if s.analyzeBtnDisabled then none else some (analyzeBtnClick s)
  | .settle r t1 t2 =>
    if s.pending = 0 then none else some (analyzeBtnResume host r t1 t2 s)

/-- A sequence of events as the page delivers them, oldest first. -/
def pageRun (host : Host) (s : Page) : List Event → Option Page
  | [] => some s
  | e :: es => (pageStep host s e).bind fun s1 => pageRun host s1 es

/-- The controls agree with the request bookkeeping: at most one request is pending, the
loader shows exactly while one is, the file-selection button is disabled exactly while
the loader shows, and the analyze button is disabled exactly when the loader shows or no
file is selected. -/
def Coherent (s : Page) : Prop :=
  s.pending ≤ 1 ∧ s.loaderHidden = decide (s.pending = 0) ∧
    s.uploadBtnDisabled = (!s.loaderHidden) ∧
    s.analyzeBtnDisabled = (!s.loaderHidden || !s.selectedFile.isSome)

/-- The state of a freshly loaded page: no selection, not busy, analyze disabled, no
error showing and no request issued. -/
def Initial (s : Page) : Prop :=
  s.selectedFile = none ∧ s.loaderHidden = true ∧ s.analyzeBtnDisabled = true ∧
    s.uploadBtnDisabled = false ∧ s.errorText = "" ∧ s.pending = 0

/-- The request did not produce a success response: `fetch` rejected, or `res.ok` is
false. -/
def transportFailure : FetchResult → Bool
  | .rejected => true
  | .resolved res => !res.ok

/-! ## Sample data -/

/-- A host whose `Number::toString` is only ever asked about `1e21`. -/
def sampleHost : Host := ⟨fun _ => "1e+21"⟩

/-- A video file. -/
def clip1 : File := ⟨"clip1.mp4", 1048576⟩

/-- Another video file. -/
def clip2 : File := ⟨"clip2.mp4", 2097152⟩

/-- A freshly loaded page: nothing selected, nothing showing, the log holding its
placeholder. -/
def freshPage : Page :=
  { selectedFile := none
    loaderHidden := true
    analyzeBtnDisabled := true
    uploadBtnDisabled := false
    fileNameLabel := "No file selected"
    errorTextHidden := true
    errorText := ""
    resultCardHidden := true
    resultLabel := ""
    resultProb := ""
    logList := [.empty]
    liveDotClasses := ["dot", "dot-safe"]
    liveStatusText := "Idle"
    lastPredictionTime := ""
    console := []
    requests := []
    pending := 0 }

/-- The page after `clip1` was picked on a fresh page. -/
def pickedPage : Page := videoInputChange (some [clip1]) freshPage

/-- The double nearest to `0.873`, which is `3931642474694443 / 2^52`. -/
def p873 : JSNumber := .finite false 3931642474694443 (-52)

/-- The response of scenario B: status 200 with body
`\x7b"label":"violent","probability":0.873\x7d`. -/
def violentResponse : Response :=
  { status := 200
    text := none
    json := some (.object [("label", .string "violent"), ("probability", .number p873)]) }

/-- A response with status 500 and a server-side error text. -/
def serverError : Response :=
  { status := 500, text := some "Traceback: model not loaded", json := none }

/-- A response with status 200 whose body `\x7b"probability":0.5\x7d` has no label. -/
def labelMissingResponse : Response :=
  { status := 200
    text := none
    json := some (.object [("probability", .number (.finite false 1 (-1)))]) }

/-- A response with status 200 whose body `\x7b"label":"violent"\x7d` has no probability. -/
def probabilityMissingResponse : Response :=
  { status := 200
    text := none
    json := some (.object [("label", .string "violent")]) }

/-- The double `0.25`, which is `1 / 2^2`. -/
def quarter : JSNumber := .finite false 1 (-2)

/-- A response with status 200 and body `\x7b"label":"nonviolent","probability":0.25\x7d`. -/
def safeResponse : Response :=
  { status := 200
    text := none
    json := some (.object [("label", .string "nonviolent"), ("probability", .number quarter)]) }

/-- The event sequence of one analysis in flight: `clip1` is picked and analyze is
clicked. -/
def analysisInFlight : List Event :=
  [.change (some [clip1]), .click]

/-- The event sequence of a completed analysis followed by the start of a second one. -/
def secondAnalysis : List Event :=
  [.change (some [clip1]), .click, .settle (.resolved violentResponse) "10:00:01" "10:00:02",
    .click]

/-- The event sequence in which the request fails and the file picker is then dismissed
without a file. -/
def failThenDismiss : List Event :=
  [.change (some [clip1]), .click, .settle .rejected "10:00:01" "10:00:02"]

/-- The event is an analysis attempt that fails in state `s`: a click that stops at the
selection guard (line 110), or a settling request whose `try` block throws. -/
def attemptFails (host : Host) (s : Page) : Event → Bool
  | .change _ => false
  | .click => s.selectedFile.isNone
  | .settle r t1 t2 => (tryBlock host r t1 t2 { s with pending := s.pending - 1 }).2.isSome

/-- The event neither chooses a file nor starts an analysis: a file-selection event without
a file, or the settling of a request. -/
def keepsError : Event → Bool
  | .change none => true
  | .change (some []) => true
  | .change (some (_ :: _)) => false
  | .click => false
  | .settle _ _ _ => true

/-! ## Helper lemmas -/

theorem filterMap_removeLogEmpty (l : List LogChild) :
    (removeLogEmpty l).filterMap (fun c => match c with
      | .empty => none
      | .item i => some i) =
    l.filterMap (fun c => match c with
      | .empty => none
      | .item i => some i) := by
  induction l with
  | nil => rfl
  | cons c rest ih =>
    cases c with
    | empty => simp [removeLogEmpty]
    | item i => simp [removeLogEmpty, ih]

theorem tryBlock_transportFailure (host : Host) (r : FetchResult) (t1 t2 : String) (s : Page)
    (h : transportFailure r = true) :
    ∃ err, tryBlock host r t1 t2 s = (s, some err) := by
  cases r with
  | rejected => exact ⟨_, rfl⟩
  | resolved res =>
    simp only [transportFailure] at h
    cases ht : res.text with
    | none => exact ⟨.rejection, by simp [tryBlock, h, ht]⟩
    | some errText =>
      exact ⟨.error (if errText = "" then "Server error" else errText),
        by simp [tryBlock, h, ht]⟩

theorem analyzeBtnResume_of_transportFailure (host : Host) (r : FetchResult)
    (t1 t2 : String) (s : Page) (h : transportFailure r = true) :
    ∃ err, analyzeBtnResume host r t1 t2 s =
      setLoading false
        (showError "Failed to analyze video. Check backend and try again."
          { s with pending := s.pending - 1, console := err :: s.console }) := by
  obtain ⟨err, herr⟩ :=
    tryBlock_transportFailure host r t1 t2 { s with pending := s.pending - 1 } h
  exact ⟨err, by rw [analyzeBtnResume, herr]; rfl⟩

theorem presentResult_ok (host : Host) (data l : JSVal) (p : JSNumber) (t1 t2 : String)
    (s : Page) (hl : getProp data "label" = .ok l)
    (hp : getProp data "probability" = .ok (.number p)) :
    presentResult host data t1 t2 s =
      ({ s with
          resultCardHidden := false
          resultLabel := if strictEqString l "violent" then "Violent" else "Non-violent"
          resultProb := toFixed host p 3
          liveDotClasses :=
            classListAdd (classListRemove s.liveDotClasses ["dot-safe", "dot-violent"])
              (if strictEqString l "violent" then "dot-violent" else "dot-safe")
          liveStatusText :=
            if strictEqString l "violent" then "Violence (" ++ toFixed host p 2 ++ ")"
            else "Safe (" ++ toFixed host p 2 ++ ")"
          lastPredictionTime := t1
          logList :=
            .item (newLogItem (strictEqString l "violent") (toFixed host p 2) t2) ::
              removeLogEmpty s.logList }, none) := by
  simp [presentResult, hl, hp, callToFixed, updateLiveStatus, addLogEntry]

/-- The rendering code touches neither the selection, the error message, the controls nor
the request bookkeeping, whether it completes or throws. -/
theorem presentResult_frame (host : Host) (data : JSVal) (t1 t2 : String) (s : Page) :
    (presentResult host data t1 t2 s).1.selectedFile = s.selectedFile ∧
      (presentResult host data t1 t2 s).1.errorText = s.errorText ∧
      (presentResult host data t1 t2 s).1.errorTextHidden = s.errorTextHidden ∧
      (presentResult host data t1 t2 s).1.pending = s.pending ∧
      (presentResult host data t1 t2 s).1.requests = s.requests := by
  unfold presentResult
  cases getProp data "probability" with
  | error e => simp
  | ok prob =>
    cases getProp data "label" with
    | error e => simp
    | ok label => cases prob <;> simp [callToFixed, updateLiveStatus, addLogEntry]

theorem tryBlock_frame (host : Host) (r : FetchResult) (t1 t2 : String) (s : Page) :
    (tryBlock host r t1 t2 s).1.selectedFile = s.selectedFile ∧
      (tryBlock host r t1 t2 s).1.errorText = s.errorText ∧
      (tryBlock host r t1 t2 s).1.errorTextHidden = s.errorTextHidden ∧
      (tryBlock host r t1 t2 s).1.pending = s.pending ∧
      (tryBlock host r t1 t2 s).1.requests = s.requests := by
  cases r with
  | rejected => simp [tryBlock]
  | resolved res =>
    cases hok : res.ok with
    | false => cases ht : res.text <;> simp [tryBlock, hok, ht]
    | true =>
      cases hj : res.json with
      | none => simp [tryBlock, hok, hj]
      | some data => simpa [tryBlock, hok, hj] using presentResult_frame host data t1 t2 s

theorem catchFinally_controls (out : Page × Option Thrown) :
    (catchFinally out).loaderHidden = true ∧
      (catchFinally out).uploadBtnDisabled = false ∧
      (catchFinally out).selectedFile = out.1.selectedFile ∧
      (catchFinally out).analyzeBtnDisabled = !out.1.selectedFile.isSome ∧
      (catchFinally out).pending = out.1.pending ∧
      (catchFinally out).requests = out.1.requests := by
  obtain ⟨s1, _ | err⟩ := out <;> simp [catchFinally, setLoading, showError]

theorem catchFinally_errorText (out : Page × Option Thrown) (h : out.2 = none) :
    (catchFinally out).errorText = out.1.errorText := by
  obtain ⟨s1, o⟩ := out
  simp only at h
  subst h
  simp [catchFinally, setLoading]

theorem analyzeBtnResume_selectedFile (host : Host) (r : FetchResult) (t1 t2 : String)
    (s : Page) : (analyzeBtnResume host r t1 t2 s).selectedFile = s.selectedFile := by
  have h := (tryBlock_frame host r t1 t2 { s with pending := s.pending - 1 }).1
  rw [analyzeBtnResume, (catchFinally_controls _).2.2.1, h]

theorem tryBlock_ok (host : Host) (res : Response) (data : JSVal) (t1 t2 : String) (s : Page)
    (hok : res.ok = true) (hjson : res.json = some data) :
    tryBlock host (.resolved res) t1 t2 s = presentResult host data t1 t2 s := by
  simp [tryBlock, hok, hjson]

/-- The page after a success response whose body has label `l` and numeric
probability `p`. -/
theorem analyzeBtnResume_success (host : Host) (res : Response) (data l : JSVal)
    (p : JSNumber) (t1 t2 : String) (s : Page) (hok : res.ok = true)
    (hjson : res.json = some data) (hl : getProp data "label" = .ok l)
    (hp : getProp data "probability" = .ok (.number p)) :
    analyzeBtnResume host (.resolved res) t1 t2 s =
      setLoading false
        { s with
          pending := s.pending - 1
          resultCardHidden := false
          resultLabel := if strictEqString l "violent" then "Violent" else "Non-violent"
          resultProb := toFixed host p 3
          liveDotClasses :=
            classListAdd (classListRemove s.liveDotClasses ["dot-safe", "dot-violent"])
              (if strictEqString l "violent" then "dot-violent" else "dot-safe")
          liveStatusText :=
            if strictEqString l "violent" then "Violence (" ++ toFixed host p 2 ++ ")"
            else "Safe (" ++ toFixed host p 2 ++ ")"
          lastPredictionTime := t1
          logList :=
            .item (newLogItem (strictEqString l "violent") (toFixed host p 2) t2) ::
              removeLogEmpty s.logList } := by
  rw [analyzeBtnResume, tryBlock_ok host res data t1 t2 _ hok hjson,
    presentResult_ok host data l p t1 t2 _ hl hp]
  rfl

theorem mem_classListAdd (classes : List String) (token : String) :
    token ∈ classListAdd classes token := by
  unfold classListAdd
  split
  · rename_i h
    simpa using h
  · simp

theorem not_mem_classListAdd_remove (classes tokens : List String) (a token : String)
    (ha : a ∈ tokens) (hne : a ≠ token) :
    a ∉ classListAdd (classListRemove classes tokens) token := by
  have hrem : a ∉ classListRemove classes tokens := by
    simp [classListRemove, ha]
  unfold classListAdd
  split
  · exact hrem
  · simp [hrem, hne]

/-- An error message that shows after an event was either put there by that event, a
failed analysis attempt, or was showing before and the event kept it. -/
theorem error_after_step (host : Host) (s s1 : Page) (e : Event)
    (h : step host s e = some s1) (hne : s1.errorText ≠ "") :
    attemptFails host s e = true ∨ (keepsError e = true ∧ s.errorText ≠ "") := by
  cases e with
  | change files =>
    simp only [step, Option.some.injEq] at h
    subst h
    rcases files with _ | _ | ⟨f, rest⟩
    · exact Or.inr ⟨rfl, by simpa [videoInputChange] using hne⟩
    · exact Or.inr ⟨rfl, by simpa [videoInputChange] using hne⟩
    · simp [videoInputChange, clearError] at hne
  | click =>
    cases hsel : s.selectedFile with
    | none => exact Or.inl (by simp [attemptFails, hsel])
    | some f =>
      by_cases hd : s.analyzeBtnDisabled = true
      · simp [step, hd] at h
      · simp only [step, hd, Bool.false_eq_true, if_false, Option.some.injEq] at h
        subst h
        simp [analyzeBtnClick, hsel, setLoading, clearError] at hne
  | settle r t1 t2 =>
    by_cases hp : s.pending = 0
    · simp [step, hp] at h
    · simp only [step, hp, if_false, Option.some.injEq] at h
      subst h
      have hf := (tryBlock_frame host r t1 t2 { s with pending := s.pending - 1 }).2.1
      cases hout : (tryBlock host r t1 t2 { s with pending := s.pending - 1 }).2 with
      | some err => exact Or.inl (by simp [attemptFails, hout])
      | none =>
        refine Or.inr ⟨rfl, ?_⟩
        rw [analyzeBtnResume, catchFinally_errorText _ hout, hf] at hne
        exact hne

theorem error_trace (host : Host) :
    ∀ (trace : List Event) (s0 s : Page), run host s0 trace = some s → s.errorText ≠ "" →
      (s0.errorText ≠ "" ∧ ∀ x ∈ trace, keepsError x = true) ∨
      ∃ pre e post s1, trace = pre ++ e :: post ∧ run host s0 pre = some s1 ∧
        attemptFails host s1 e = true ∧ ∀ x ∈ post, keepsError x = true := by
  intro trace
  induction trace with
  | nil =>
    intro s0 s h hne
    simp only [run, Option.some.injEq] at h
    subst h
    exact Or.inl ⟨hne, by simp⟩
  | cons e es ih =>
    intro s0 s h hne
    cases hstep : step host s0 e with
    | none => simp [run, hstep] at h
    | some s1 =>
      simp only [run, hstep, Option.bind_some] at h
      rcases ih s1 s h hne with ⟨hne1, hall⟩ | ⟨pre, e1, post, s2, htr, hrun, hfail, hall⟩
      · rcases error_after_step host s0 s1 e hstep hne1 with hfail | ⟨hk, hne0⟩
        · exact Or.inr ⟨[], e, es, s0, rfl, rfl, hfail, hall⟩
        · refine Or.inl ⟨hne0, ?_⟩
          intro x hx
          rcases List.mem_cons.mp hx with rfl | hx
          · exact hk
          · exact hall x hx
      · refine Or.inr ⟨e :: pre, e1, post, s2, by simp [htr], ?_, hfail, hall⟩
        simp [run, hstep, hrun]

/-- Every event other than a file chosen while the loader is showing keeps
`analyzeEnabled == hasSelection && !busy`. -/
theorem busy_invariant_step (host : Host) (s s1 : Page) (e : Event)
    (h : step host s e = some s1)
    (hinv : analyzeEnabled s = (hasSelection s && !busy s))
    (hfile : ∀ f rest, e = .change (some (f :: rest)) → busy s = false) :
    analyzeEnabled s1 = (hasSelection s1 && !busy s1) := by
  cases e with
  | change files =>
    simp only [step, Option.some.injEq] at h
    subst h
    rcases files with _ | _ | ⟨f, rest⟩
    · simp [videoInputChange, analyzeEnabled, hasSelection]
    · simp [videoInputChange, analyzeEnabled, hasSelection]
    · have hb := hfile f rest rfl
      simp only [busy, Bool.not_eq_false_eq_eq_true] at hb
      simp [videoInputChange, clearError, analyzeEnabled, hasSelection, busy, hb]
  | click =>
    by_cases hd : s.analyzeBtnDisabled = true
    · simp [step, hd] at h
    · simp only [step, hd, Bool.false_eq_true, if_false, Option.some.injEq] at h
      subst h
      cases hsel : s.selectedFile with
      | none =>
        simpa [analyzeBtnClick, hsel, showError, analyzeEnabled, hasSelection, busy]
          using hinv
      | some f =>
        simp [analyzeBtnClick, hsel, setLoading, clearError, analyzeEnabled, hasSelection,
          busy]
  | settle r t1 t2 =>
    by_cases hp : s.pending = 0
    · simp [step, hp] at h
    · simp only [step, hp, if_false, Option.some.injEq] at h
      subst h
      have hc :=
        catchFinally_controls (tryBlock host r t1 t2 { s with pending := s.pending - 1 })
      simp only [analyzeEnabled, hasSelection, busy, analyzeBtnResume, hc.1, hc.2.2.1,
        hc.2.2.2.1]
      simp

theorem coherent_of_initial (s : Page) (h : Initial s) : Coherent s := by
  obtain ⟨hsel, hl, ha, hu, _, hp⟩ := h
  simp [Coherent, hsel, hl, ha, hu, hp]

/-- Every event the page delivers keeps the controls in agreement with the request
bookkeeping. -/
theorem coherent_pageStep (host : Host) (s s1 : Page) (e : Event)
    (h : pageStep host s e = some s1) (hc : Coherent s) : Coherent s1 := by
  obtain ⟨h1, h2, h3, h4⟩ := hc
  cases e with
  | change files =>
    by_cases hu : s.uploadBtnDisabled = true
    · simp [pageStep, hu] at h
    · simp only [pageStep, hu, Bool.false_eq_true, if_false, Option.some.injEq] at h
      subst h
      have hl : s.loaderHidden = true := by
        cases hlh : s.loaderHidden
        · rw [hlh] at h3
          exact absurd h3 hu
        · rfl
      rcases files with _ | _ | ⟨f, rest⟩
      · exact ⟨h1, h2, h3, by simp [videoInputChange, uploadBtnClick]⟩
      · exact ⟨h1, h2, h3, by simp [videoInputChange, uploadBtnClick]⟩
      · exact ⟨h1, h2, h3, by simp [videoInputChange, uploadBtnClick, clearError, hl]⟩
  | click =>
    by_cases hd : s.analyzeBtnDisabled = true
    · simp [pageStep, hd] at h
    · simp only [pageStep, hd, Bool.false_eq_true, if_false, Option.some.injEq] at h
      subst h
      have hd0 : s.analyzeBtnDisabled = false := by simpa using hd
      rw [hd0] at h4
      have hl : s.loaderHidden = true := by
        cases hlh : s.loaderHidden
        · rw [hlh] at h4
          simp at h4
        · rfl
      have hp : s.pending = 0 := by
        rw [hl] at h2
        simpa using h2.symm
      cases hsel : s.selectedFile with
      | none =>
        rw [hl, hsel] at h4
        simp at h4
      | some f =>
        simp [Coherent, analyzeBtnClick, hsel, setLoading, clearError, hp]
  | settle r t1 t2 =>
    by_cases hp : s.pending = 0
    · simp [pageStep, hp] at h
    · simp only [pageStep, hp, if_false, Option.some.injEq] at h
      subst h
      have hp1 : s.pending - 1 = 0 := by omega
      have hc :=
        catchFinally_controls (tryBlock host r t1 t2 { s with pending := s.pending - 1 })
      have hf := tryBlock_frame host r t1 t2 { s with pending := s.pending - 1 }
      have hpend : (analyzeBtnResume host r t1 t2 s).pending = 0 := by
        rw [analyzeBtnResume, hc.2.2.2.2.1, hf.2.2.2.1]
        exact hp1
      have hlh : (analyzeBtnResume host r t1 t2 s).loaderHidden = true := hc.1
      have hup : (analyzeBtnResume host r t1 t2 s).uploadBtnDisabled = false := hc.2.1
      have han : (analyzeBtnResume host r t1 t2 s).analyzeBtnDisabled =
          !(analyzeBtnResume host r t1 t2 s).selectedFile.isSome := by
        rw [analyzeBtnResume, hc.2.2.2.1, hc.2.2.1]
      refine ⟨by omega, ?_, ?_, ?_⟩
      · rw [hlh, hpend]
        rfl
      · rw [hlh, hup]
        rfl
      · rw [han, hlh]
        simp

theorem coherent_pageRun (host : Host) :
    ∀ (trace : List Event) (s0 s : Page), pageRun host s0 trace = some s → Coherent s0 →
      Coherent s := by
  intro trace
  induction trace with
  | nil =>
    intro s0 s h hc
    simp only [pageRun, Option.some.injEq] at h
    subst h
    exact hc
  | cons e es ih =>
    intro s0 s h hc
    cases hstep : pageStep host s0 e with
    | none => simp [pageRun, hstep] at h
    | some s1 =>
      simp only [pageRun, hstep, Option.bind_some] at h
      exact ih s1 s h (coherent_pageStep host s0 s1 e hstep hc)

/-! ## Selection and the guard of the analyze action -/

/-- C4: when no file is selected, the analyze handler only shows the message
"Please select a video file first.": no request is issued (the request trace and the
number of pending requests are unchanged), and the busy flag, the selection, the log, the
detail view and the live status are left as they were. -/
theorem analyzeBtnClick_no_selection (s : Page) (h : s.selectedFile = none) :
    analyzeBtnClick s =
        { s with errorTextHidden := false, errorText := "Please select a video file first." } ∧
      (analyzeBtnClick s).errorText = "Please select a video file first." ∧
      (analyzeBtnClick s).errorTextHidden = false ∧
      (analyzeBtnClick s).requests = s.requests ∧
      (analyzeBtnClick s).pending = s.pending ∧
      busy (analyzeBtnClick s) = busy s ∧
      (analyzeBtnClick s).selectedFile = s.selectedFile ∧
      (analyzeBtnClick s).logList = s.logList ∧
      ((analyzeBtnClick s).resultCardHidden = s.resultCardHidden ∧
        (analyzeBtnClick s).resultLabel = s.resultLabel ∧
        (analyzeBtnClick s).resultProb = s.resultProb) ∧
      ((analyzeBtnClick s).liveDotClasses = s.liveDotClasses ∧
        (analyzeBtnClick s).liveStatusText = s.liveStatusText ∧
        (analyzeBtnClick s).lastPredictionTime = s.lastPredictionTime) := by
  simp [analyzeBtnClick, h, showError, busy]

/-- Witness of C4 on a fresh page. -/
theorem analyzeBtnClick_no_selection_witness :
    (analyzeBtnClick freshPage).errorText = "Please select a video file first." ∧
      (analyzeBtnClick freshPage).requests = [] :=
  ⟨(analyzeBtnClick_no_selection freshPage rfl).2.1,
    (analyzeBtnClick_no_selection freshPage rfl).2.2.2.1⟩

/-- C9: a file-selection event without a candidate file (`null` or an empty list) clears
the selection, disables the analyze action and sets the label to "No file selected"; with
candidates it selects exactly the first one, shows its name, and empties and hides the
error message; in every case the log, the detail view and the live status are unchanged. -/
theorem videoInputChange_spec (s : Page) (f : File) (rest : List File) :
    ((videoInputChange none s).selectedFile = none ∧
      (videoInputChange none s).analyzeBtnDisabled = true ∧
      (videoInputChange none s).fileNameLabel = "No file selected") ∧
    ((videoInputChange (some []) s).selectedFile = none ∧
      (videoInputChange (some []) s).analyzeBtnDisabled = true ∧
      (videoInputChange (some []) s).fileNameLabel = "No file selected") ∧
    ((videoInputChange (some (f :: rest)) s).selectedFile = some f ∧
      (videoInputChange (some (f :: rest)) s).fileNameLabel = f.name ∧
      (videoInputChange (some (f :: rest)) s).errorText = "" ∧
      (videoInputChange (some (f :: rest)) s).errorTextHidden = true) ∧
    ∀ files : Option (List File),
      (videoInputChange files s).logList = s.logList ∧
      ((videoInputChange files s).resultCardHidden = s.resultCardHidden ∧
        (videoInputChange files s).resultLabel = s.resultLabel ∧
        (videoInputChange files s).resultProb = s.resultProb) ∧
      ((videoInputChange files s).liveDotClasses = s.liveDotClasses ∧
        (videoInputChange files s).liveStatusText = s.liveStatusText ∧
        (videoInputChange files s).lastPredictionTime = s.lastPredictionTime) := by
  refine ⟨by simp [videoInputChange], by simp [videoInputChange],
    by simp [videoInputChange, clearError], ?_⟩
  intro files
  rcases files with _ | _ | ⟨g, gs⟩ <;> simp [videoInputChange, clearError]

/-! ## Failure of the request -/

/-- C2: with a file selected, when the analyze handler runs and the request is rejected
or answered with a non-success status, the page shows exactly
"Failed to analyze video. Check backend and try again." (whatever text the server sent),
the busy state is cleared, the same file is still selected, the analyze action is enabled
again and the log is the one from before the call. -/
theorem analyze_transport_failure (host : Host) (s : Page) (f : File) (r : FetchResult)
    (t1 t2 : String) (hsel : s.selectedFile = some f) (hfail : transportFailure r = true) :
    (analyzeBtnResume host r t1 t2 (analyzeBtnClick s)).errorText =
        "Failed to analyze video. Check backend and try again." ∧
      (analyzeBtnResume host r t1 t2 (analyzeBtnClick s)).errorTextHidden = false ∧
      busy (analyzeBtnResume host r t1 t2 (analyzeBtnClick s)) = false ∧
      (analyzeBtnResume host r t1 t2 (analyzeBtnClick s)).uploadBtnDisabled = false ∧
      (analyzeBtnResume host r t1 t2 (analyzeBtnClick s)).pending = s.pending ∧
      (analyzeBtnResume host r t1 t2 (analyzeBtnClick s)).selectedFile = some f ∧
      analyzeEnabled (analyzeBtnResume host r t1 t2 (analyzeBtnClick s)) = true ∧
      (analyzeBtnResume host r t1 t2 (analyzeBtnClick s)).logList = s.logList ∧
      history (analyzeBtnResume host r t1 t2 (analyzeBtnClick s)) = history s := by
  obtain ⟨err, herr⟩ :=
    analyzeBtnResume_of_transportFailure host r t1 t2 (analyzeBtnClick s) hfail
  rw [herr]
  simp [setLoading, showError, busy, analyzeEnabled, history, analyzeBtnClick, hsel,
    clearError]

/-- Witness of C2: `clip1` selected and the server answers with status 500. -/
theorem analyze_transport_failure_witness :
    (analyzeBtnResume sampleHost (.resolved serverError) "10:00:00" "10:00:00"
        (analyzeBtnClick pickedPage)).errorText =
      "Failed to analyze video. Check backend and try again." :=
  (analyze_transport_failure sampleHost pickedPage clip1 (.resolved serverError)
    "10:00:00" "10:00:00" rfl rfl).1

/-- C6: however the body of the handler exits once the request settles (request rejected,
non-success status, body that does not parse, success, or an exception thrown while the
result is rendered), the loader is hidden, the file-selection button is enabled, and the
analyze button is disabled exactly when no file is selected at that moment.  The last line
shows a body exit through an exception of the rendering code. -/
theorem analyzeBtnResume_cleanup (host : Host) (r : FetchResult) (t1 t2 : String) (s : Page) :
    (analyzeBtnResume host r t1 t2 s).loaderHidden = true ∧
      (analyzeBtnResume host r t1 t2 s).uploadBtnDisabled = false ∧
      (analyzeBtnResume host r t1 t2 s).selectedFile = s.selectedFile ∧
      ((analyzeBtnResume host r t1 t2 s).analyzeBtnDisabled = true ↔
        (analyzeBtnResume host r t1 t2 s).selectedFile = none) ∧
      (tryBlock host
        (.resolved ⟨200, none, some (.object [("label", .string "violent"),
          ("probability", .string "0.9")])⟩) t1 t2 s).2 = some .typeError := by
  have hsel := analyzeBtnResume_selectedFile host r t1 t2 s
  have hc := catchFinally_controls (tryBlock host r t1 t2 { s with pending := s.pending - 1 })
  have hf := (tryBlock_frame host r t1 t2 { s with pending := s.pending - 1 }).1
  refine ⟨hc.1, hc.2.1, hsel, ?_, by simp [tryBlock, Response.ok, presentResult, getProp,
    List.lookup, callToFixed]⟩
  rw [hsel]
  show (catchFinally _).analyzeBtnDisabled = true ↔ _
  rw [hc.2.2.2.1, hf]
  cases s.selectedFile <;> simp

/-! ## Presentation of a result -/

/-- C3: with a file selected, a success response with label `l` and numeric probability
`p` leaves the log items equal to one new item for `(l, p)` followed by the previous items
in their order: the new item reads "Violence detected (" ++ p to 2 decimals ++ ")" with the
violent classes when `l` is "violent" and "Safe (" ++ p to 2 decimals ++ ")" with the safe
classes otherwise, stamped with the time of the call.  The detail view is revealed and
shows the same `l` ("Violent" or "Non-violent") and `p` to 3 decimals.  After a second
successful analysis the item of the second call is above the item of the first.  The last
part is scenario D on concrete responses: label "violent" with probability 0.873, then
label "nonviolent" with probability 0.25, give "Safe (0.25)" above
"Violence detected (0.87)" above the earlier items, the detail view showing first
"Violent" / "0.873" and then "Non-violent" / "0.250". -/
theorem analyze_success_prepends (host : Host) (s : Page) (f : File)
    (res res2 : Response) (data data2 l l2 : JSVal) (p p2 : JSNumber)
    (t1 t2 t3 t4 : String) (hsel : s.selectedFile = some f)
    (hok : res.ok = true) (hjson : res.json = some data)
    (hl : getProp data "label" = .ok l)
    (hp : getProp data "probability" = .ok (.number p))
    (hok2 : res2.ok = true) (hjson2 : res2.json = some data2)
    (hl2 : getProp data2 "label" = .ok l2)
    (hp2 : getProp data2 "probability" = .ok (.number p2)) :
    history (analyzeBtnResume host (.resolved res) t1 t2 (analyzeBtnClick s)) =
        { dotClass := "dot " ++ (if strictEqString l "violent" then "dot-violent"
            else "dot-safe")
          textClass := if strictEqString l "violent" then "log-label-violent"
            else "log-label-safe"
          text := if strictEqString l "violent"
            then "Violence detected (" ++ toFixed host p 2 ++ ")"
            else "Safe (" ++ toFixed host p 2 ++ ")"
          time := t2 } :: history s ∧
      (analyzeBtnResume host (.resolved res) t1 t2 (analyzeBtnClick s)).resultCardHidden
        = false ∧
      (analyzeBtnResume host (.resolved res) t1 t2 (analyzeBtnClick s)).resultLabel =
        (if strictEqString l "violent" then "Violent" else "Non-violent") ∧
      (analyzeBtnResume host (.resolved res) t1 t2 (analyzeBtnClick s)).resultProb =
        toFixed host p 3 ∧
      (analyzeBtnResume host (.resolved res) t1 t2 (analyzeBtnClick s)).selectedFile =
        some f ∧
      history (analyzeBtnResume host (.resolved res2) t3 t4
          (analyzeBtnClick (analyzeBtnResume host (.resolved res) t1 t2 (analyzeBtnClick s)))) =
        { dotClass := "dot " ++ (if strictEqString l2 "violent" then "dot-violent"
            else "dot-safe")
          textClass := if strictEqString l2 "violent" then "log-label-violent"
            else "log-label-safe"
          text := if strictEqString l2 "violent"
            then "Violence detected (" ++ toFixed host p2 2 ++ ")"
            else "Safe (" ++ toFixed host p2 2 ++ ")"
          time := t4 } ::
        { dotClass := "dot " ++ (if strictEqString l "violent" then "dot-violent"
            else "dot-safe")
          textClass := if strictEqString l "violent" then "log-label-violent"
            else "log-label-safe"
          text := if strictEqString l "violent"
            then "Violence detected (" ++ toFixed host p 2 ++ ")"
            else "Safe (" ++ toFixed host p 2 ++ ")"
          time := t2 } :: history s ∧
      (history (analyzeBtnResume host (.resolved safeResponse) t3 t4
          (analyzeBtnClick
            (analyzeBtnResume host (.resolved violentResponse) t1 t2 (analyzeBtnClick s)))) =
        { dotClass := "dot dot-safe", textClass := "log-label-safe", text := "Safe (0.25)",
          time := t4 } ::
        { dotClass := "dot dot-violent", textClass := "log-label-violent",
          text := "Violence detected (0.87)", time := t2 } :: history s ∧
        (analyzeBtnResume host (.resolved violentResponse) t1 t2
          (analyzeBtnClick s)).resultLabel = "Violent" ∧
        (analyzeBtnResume host (.resolved violentResponse) t1 t2
          (analyzeBtnClick s)).resultProb = "0.873" ∧
        (analyzeBtnResume host (.resolved safeResponse) t3 t4
          (analyzeBtnClick
            (analyzeBtnResume host (.resolved violentResponse) t1 t2
              (analyzeBtnClick s)))).resultLabel = "Non-violent" ∧
        (analyzeBtnResume host (.resolved safeResponse) t3 t4
          (analyzeBtnClick
            (analyzeBtnResume host (.resolved violentResponse) t1 t2
              (analyzeBtnClick s)))).resultProb = "0.250") := by
  have hkeep : ∀ (q : Page) (r : Response) (u v : String), q.selectedFile = some f →
      (analyzeBtnResume host (.resolved r) u v (analyzeBtnClick q)).selectedFile = some f := by
    intro q r u v hq
    rw [analyzeBtnResume_selectedFile]
    simp [analyzeBtnClick, hq, setLoading, clearError]
  have hh : ∀ (q : Page) (r : Response) (d k : JSVal) (x : JSNumber)
      (u v : String), q.selectedFile = some f → r.ok = true → r.json = some d →
      getProp d "label" = .ok k → getProp d "probability" = .ok (.number x) →
      history (analyzeBtnResume host (.resolved r) u v (analyzeBtnClick q)) =
        newLogItem (strictEqString k "violent") (toFixed host x 2) v :: history q := by
    intro q r d k x u v hq h1 h2 h3 h4
    rw [analyzeBtnResume_success host r d k x u v _ h1 h2 h3 h4]
    simp [history, setLoading, analyzeBtnClick, hq, clearError, filterMap_removeLogEmpty]
  have hd : ∀ (q : Page) (r : Response) (d k : JSVal) (x : JSNumber)
      (u v : String), r.ok = true → r.json = some d →
      getProp d "label" = .ok k → getProp d "probability" = .ok (.number x) →
      (analyzeBtnResume host (.resolved r) u v q).resultCardHidden = false ∧
      (analyzeBtnResume host (.resolved r) u v q).resultLabel =
        (if strictEqString k "violent" then "Violent" else "Non-violent") ∧
      (analyzeBtnResume host (.resolved r) u v q).resultProb = toFixed host x 3 := by
    intro q r d k x u v h1 h2 h3 h4
    rw [analyzeBtnResume_success host r d k x u v _ h1 h2 h3 h4]
    simp [setLoading]
  have hsel1 := hkeep s res t1 t2 hsel
  have hselB := hkeep s violentResponse t1 t2 hsel
  have hd1 := hd (analyzeBtnClick s) res data l p t1 t2 hok hjson hl hp
  refine ⟨hh s res data l p t1 t2 hsel hok hjson hl hp, hd1.1, hd1.2.1, hd1.2.2, hsel1,
    ?_, ?_, ?_, ?_, ?_, ?_⟩
  · rw [hh _ res2 data2 l2 p2 t3 t4 hsel1 hok2 hjson2 hl2 hp2,
      hh s res data l p t1 t2 hsel hok hjson hl hp]
    rfl
  · rw [hh _ safeResponse _ (.string "nonviolent") quarter t3 t4 hselB rfl rfl rfl rfl,
      hh s violentResponse _ (.string "violent") p873 t1 t2 hsel rfl rfl rfl rfl]
    rfl
  · exact (hd _ violentResponse _ (.string "violent") p873 t1 t2 rfl rfl rfl rfl).2.1
  · exact (hd _ violentResponse _ (.string "violent") p873 t1 t2 rfl rfl rfl rfl).2.2
  · exact (hd _ safeResponse _ (.string "nonviolent") quarter t3 t4 rfl rfl rfl rfl).2.1
  · exact (hd _ safeResponse _ (.string "nonviolent") quarter t3 t4 rfl rfl rfl rfl).2.2

/-- Witness of C3: `clip1` selected on a fresh page, the response of scenario B and then a
non-violent response: the log holds "Safe (0.25)" above "Violence detected (0.87)". -/
theorem analyze_success_prepends_witness :
    history (analyzeBtnResume sampleHost (.resolved violentResponse) "10:00:01" "10:00:02"
        (analyzeBtnClick pickedPage)) =
        [{ dotClass := "dot dot-violent", textClass := "log-label-violent",
           text := "Violence detected (0.87)", time := "10:00:02" }] ∧
      history (analyzeBtnResume sampleHost (.resolved safeResponse) "10:00:03" "10:00:04"
        (analyzeBtnClick
          (analyzeBtnResume sampleHost (.resolved violentResponse) "10:00:01" "10:00:02"
            (analyzeBtnClick pickedPage)))) =
        [{ dotClass := "dot dot-safe", textClass := "log-label-safe",
           text := "Safe (0.25)", time := "10:00:04" },
         { dotClass := "dot dot-violent", textClass := "log-label-violent",
           text := "Violence detected (0.87)", time := "10:00:02" }] :=
  ⟨(analyze_success_prepends sampleHost pickedPage clip1 violentResponse safeResponse
    _ _ (.string "violent") (.string "nonviolent") p873 quarter
    "10:00:01" "10:00:02" "10:00:03" "10:00:04" rfl rfl rfl rfl rfl rfl rfl rfl rfl).1,
   (analyze_success_prepends sampleHost pickedPage clip1 violentResponse safeResponse
    _ _ (.string "violent") (.string "nonviolent") p873 quarter
    "10:00:01" "10:00:02" "10:00:03" "10:00:04" rfl rfl rfl rfl rfl rfl rfl rfl rfl).2.2.2.2.2.1⟩

/-- C5: for a presented result with label string `str` and probability `p`, the three
renderings follow the one decision `str == "violent"`: when it holds the detail label is
"Violent", the live status reads "Violence (" ++ p to 2 decimals ++ ")", the new log item
reads "Violence detected (" ++ p to 2 decimals ++ ")" and both dots carry the violent class;
otherwise the detail label is "Non-violent", live status and log item read
"Safe (" ++ p to 2 decimals ++ ")" and both dots carry the safe class; the detail
probability is always p to 3 decimals.  The last part is scenario B: label "violent" and
probability 0.873 give "Violent", "0.873", "Violence (0.87)" and "Violence detected (0.87)". -/
theorem present_follows_violent_decision (host : Host) (s : Page) (res : Response)
    (data : JSVal) (str : String) (p : JSNumber) (t1 t2 : String)
    (hok : res.ok = true) (hjson : res.json = some data)
    (hl : getProp data "label" = .ok (.string str))
    (hp : getProp data "probability" = .ok (.number p)) :
    (str = "violent" →
      (analyzeBtnResume host (.resolved res) t1 t2 s).resultLabel = "Violent" ∧
      (analyzeBtnResume host (.resolved res) t1 t2 s).liveStatusText =
        "Violence (" ++ toFixed host p 2 ++ ")" ∧
      (analyzeBtnResume host (.resolved res) t1 t2 s).logList.head? =
        some (.item
          { dotClass := "dot dot-violent"
            textClass := "log-label-violent"
            text := "Violence detected (" ++ toFixed host p 2 ++ ")"
            time := t2 }) ∧
      "dot-violent" ∈ (analyzeBtnResume host (.resolved res) t1 t2 s).liveDotClasses ∧
      "dot-safe" ∉ (analyzeBtnResume host (.resolved res) t1 t2 s).liveDotClasses) ∧
    (str ≠ "violent" →
      (analyzeBtnResume host (.resolved res) t1 t2 s).resultLabel = "Non-violent" ∧
      (analyzeBtnResume host (.resolved res) t1 t2 s).liveStatusText =
        "Safe (" ++ toFixed host p 2 ++ ")" ∧
      (analyzeBtnResume host (.resolved res) t1 t2 s).logList.head? =
        some (.item
          { dotClass := "dot dot-safe"
            textClass := "log-label-safe"
            text := "Safe (" ++ toFixed host p 2 ++ ")"
            time := t2 }) ∧
      "dot-safe" ∈ (analyzeBtnResume host (.resolved res) t1 t2 s).liveDotClasses ∧
      "dot-violent" ∉ (analyzeBtnResume host (.resolved res) t1 t2 s).liveDotClasses) ∧
    (analyzeBtnResume host (.resolved res) t1 t2 s).resultProb = toFixed host p 3 ∧
    ((analyzeBtnResume host (.resolved violentResponse) t1 t2 s).resultLabel = "Violent" ∧
      (analyzeBtnResume host (.resolved violentResponse) t1 t2 s).resultProb = "0.873" ∧
      (analyzeBtnResume host (.resolved violentResponse) t1 t2 s).liveStatusText =
        "Violence (0.87)" ∧
      (analyzeBtnResume host (.resolved violentResponse) t1 t2 s).logList.head? =
        some (.item
          { dotClass := "dot dot-violent"
            textClass := "log-label-violent"
            text := "Violence detected (0.87)"
            time := t2 })) := by
  have h3 : toFixed host p873 3 = "0.873" := by rfl
  have h2 : toFixed host p873 2 = "0.87" := by rfl
  have hB := analyzeBtnResume_success host violentResponse _ (.string "violent") p873 t1 t2 s
    rfl rfl rfl rfl
  rw [analyzeBtnResume_success host res data (.string str) p t1 t2 s hok hjson hl hp, hB]
  refine ⟨?_, ?_, by simp [setLoading], ?_⟩
  · intro hv
    subst hv
    refine ⟨by simp [setLoading, strictEqString], by simp [setLoading, strictEqString],
      by simp [setLoading, strictEqString, newLogItem], ?_, ?_⟩
    · simpa [setLoading, strictEqString] using mem_classListAdd _ "dot-violent"
    · simpa [setLoading, strictEqString] using
        not_mem_classListAdd_remove s.liveDotClasses ["dot-safe", "dot-violent"]
          "dot-safe" "dot-violent" (by simp) (by decide)
  · intro hv
    refine ⟨by simp [setLoading, strictEqString, hv], by simp [setLoading, strictEqString, hv],
      by simp [setLoading, strictEqString, newLogItem, hv], ?_, ?_⟩
    · simpa [setLoading, strictEqString, hv] using mem_classListAdd _ "dot-safe"
    · simpa [setLoading, strictEqString, hv] using
        not_mem_classListAdd_remove s.liveDotClasses ["dot-safe", "dot-violent"]
          "dot-violent" "dot-safe" (by simp) (by decide)
  · simp [setLoading, strictEqString, newLogItem, h3, h2]

/-- Witness of C5: scenario B on the page where `clip1` was picked. -/
theorem present_follows_violent_decision_witness :
    (analyzeBtnResume sampleHost (.resolved violentResponse) "10:00:01" "10:00:02"
        (analyzeBtnClick pickedPage)).liveStatusText =
      "Violence (" ++ toFixed sampleHost p873 2 ++ ")" :=
  ((present_follows_violent_decision sampleHost (analyzeBtnClick pickedPage) violentResponse
    _ "violent" p873 "10:00:01" "10:00:02" rfl rfl rfl rfl).1 rfl).2.1

/-! ## Enablement of the analyze action and requests in flight -/

/-- C1: in every state the page reaches from an initial state (no selection, not busy,
analyze disabled) by file-selection events, analyze clicks and request completions, the
analyze action is enabled if and only if a file is selected and no request is in flight:
`analyzeEnabled == hasSelection && !busy`, where the page is busy exactly while a request
is pending.  The button that opens the file picker is disabled exactly while the page is
busy, so no file-selection event is delivered while a request is in flight. -/
theorem analyzeEnabled_eq_selection_and_idle (host : Host) (s0 s : Page)
    (trace : List Event) (h0 : Initial s0) (hrun : pageRun host s0 trace = some s) :
    analyzeEnabled s = (hasSelection s && !busy s) ∧
      (busy s = true ↔ s.pending ≠ 0) ∧
      s.uploadBtnDisabled = busy s ∧
      (busy s = true → ∀ files, pageStep host s (.change files) = none) := by
  obtain ⟨_, h2, h3, h4⟩ := coherent_pageRun host trace s0 s hrun (coherent_of_initial s0 h0)
  refine ⟨?_, ?_, ?_, ?_⟩
  · simp only [analyzeEnabled, hasSelection, busy, h4]
    cases s.loaderHidden <;> cases s.selectedFile.isSome <;> rfl
  · simp only [busy, h2]
    by_cases hp : s.pending = 0 <;> simp [hp]
  · simp only [busy, h3]
  · intro hb files
    have hu : s.uploadBtnDisabled = true := by
      rw [h3]
      exact hb
    simp [pageStep, hu]

/-- Witness of C1: `clip1` is picked and analyze is clicked; with the request in flight the
analyze action is disabled although a file is selected. -/
theorem analyzeEnabled_eq_selection_and_idle_witness :
    analyzeEnabled (analyzeBtnClick pickedPage) =
        (hasSelection (analyzeBtnClick pickedPage) && !busy (analyzeBtnClick pickedPage)) ∧
      analyzeEnabled (analyzeBtnClick pickedPage) = false ∧
      hasSelection (analyzeBtnClick pickedPage) = true ∧
      analyzeEnabled pickedPage = true :=
  ⟨(analyzeEnabled_eq_selection_and_idle sampleHost freshPage (analyzeBtnClick pickedPage)
      analysisInFlight ⟨rfl, rfl, rfl, rfl, rfl, rfl⟩ rfl).1, by decide, by decide, by decide⟩

/-- C7: in every state the page reaches from an initial state at most one request is in
flight, and while one is in flight the analyze action is disabled, so the page delivers no
analyze click and no second request is issued before the first one completes; neither is a
file-selection event delivered then. -/
theorem at_most_one_request_pending (host : Host) (s0 s : Page)
    (trace : List Event) (h0 : Initial s0) (hrun : pageRun host s0 trace = some s) :
    s.pending ≤ 1 ∧
      (s.pending ≠ 0 →
        s.analyzeBtnDisabled = true ∧ pageStep host s .click = none ∧
        (∀ files, pageStep host s (.change files) = none) ∧
        ∀ e s1, pageStep host s e = some s1 → s1.pending = 0 ∧ s1.requests = s.requests) := by
  obtain ⟨h1, h2, h3, h4⟩ := coherent_pageRun host trace s0 s hrun (coherent_of_initial s0 h0)
  refine ⟨h1, ?_⟩
  intro hp
  have hl : s.loaderHidden = false := by
    rw [h2]
    simp [hp]
  have ha : s.analyzeBtnDisabled = true := by
    rw [h4, hl]
    rfl
  have hu : s.uploadBtnDisabled = true := by
    rw [h3, hl]
    rfl
  refine ⟨ha, by simp [pageStep, ha], fun files => by simp [pageStep, hu], ?_⟩
  intro e s1 hstep
  cases e with
  | change files => simp [pageStep, hu] at hstep
  | click => simp [pageStep, ha] at hstep
  | settle r t1 t2 =>
    simp only [pageStep, hp, if_false, Option.some.injEq] at hstep
    subst hstep
    have hc :=
      catchFinally_controls (tryBlock host r t1 t2 { s with pending := s.pending - 1 })
    have hf := tryBlock_frame host r t1 t2 { s with pending := s.pending - 1 }
    refine ⟨?_, ?_⟩
    · rw [analyzeBtnResume, hc.2.2.2.2.1, hf.2.2.2.1]
      show s.pending - 1 = 0
      omega
    · rw [analyzeBtnResume, hc.2.2.2.2.2, hf.2.2.2.2]

/-- Witness of C7: after a completed analysis a second one is started; one request is in
flight, two were issued in all, and the analyze button is disabled. -/
theorem at_most_one_request_pending_witness :
    ∃ s, pageRun sampleHost freshPage secondAnalysis = some s ∧
      s.pending = 1 ∧ s.requests = [clip1, clip1] ∧ s.analyzeBtnDisabled = true ∧
      pageStep sampleHost s .click = none :=
  ⟨_, rfl, by decide, by decide,
    ((at_most_one_request_pending sampleHost freshPage _ secondAnalysis
      ⟨rfl, rfl, rfl, rfl, rfl, rfl⟩ rfl).2 (by decide)).1,
    ((at_most_one_request_pending sampleHost freshPage _ secondAnalysis
      ⟨rfl, rfl, rfl, rfl, rfl, rfl⟩ rfl).2 (by decide)).2.1⟩

/-! ## Success status with an unexpected body -/

/-- C8 as stated fails: a 2xx body without a label but with a numeric probability is not
treated as a failure (no message is shown and a "Safe" item is added to the log), and a
2xx body without a probability ends in the failure message only after the detail view was
revealed and its label rewritten. -/
theorem shape_mismatch_counterexample :
    ((analyzeBtnResume sampleHost (.resolved labelMissingResponse) "10:00:01" "10:00:02"
        (analyzeBtnClick pickedPage)).errorText = "" ∧
      history (analyzeBtnResume sampleHost (.resolved labelMissingResponse) "10:00:01"
        "10:00:02" (analyzeBtnClick pickedPage)) =
        [{ dotClass := "dot dot-safe", textClass := "log-label-safe", text := "Safe (0.50)",
           time := "10:00:02" }] ∧
      history pickedPage = []) ∧
    ((analyzeBtnResume sampleHost (.resolved probabilityMissingResponse) "10:00:01" "10:00:02"
        (analyzeBtnClick pickedPage)).errorText =
        "Failed to analyze video. Check backend and try again." ∧
      (analyzeBtnResume sampleHost (.resolved probabilityMissingResponse) "10:00:01"
        "10:00:02" (analyzeBtnClick pickedPage)).resultCardHidden = false ∧
      (analyzeBtnResume sampleHost (.resolved probabilityMissingResponse) "10:00:01"
        "10:00:02" (analyzeBtnClick pickedPage)).resultLabel = "Violent" ∧
      pickedPage.resultCardHidden = true ∧ pickedPage.resultLabel = "") := by
  decide

/-- C8, amended: for a response with a success status whose body does not parse, is
`null`, or has a missing or non-numeric probability, the handler shows
"Failed to analyze video. Check backend and try again.", adds nothing to the log and leaves
the live status and the detail probability as they were; when the body does not parse or
is `null` the whole detail view is left as it was.  A body with a numeric probability
whose label is missing or not a string is not a failure: no message is shown by the call
and the result is presented as non-violent, with one new "Safe" item in the log. -/
theorem success_status_unexpected_body (host : Host) (s : Page) (res : Response)
    (t1 t2 : String) (hok : res.ok = true) :
    ((res.json = none ∨ res.json = some .null) →
      (analyzeBtnResume host (.resolved res) t1 t2 s).resultCardHidden = s.resultCardHidden ∧
      (analyzeBtnResume host (.resolved res) t1 t2 s).resultLabel = s.resultLabel) ∧
    ((res.json = none ∨
        ∃ data, res.json = some data ∧ ∀ x, getProp data "probability" ≠ .ok (.number x)) →
      (analyzeBtnResume host (.resolved res) t1 t2 s).errorText =
        "Failed to analyze video. Check backend and try again." ∧
      (analyzeBtnResume host (.resolved res) t1 t2 s).errorTextHidden = false ∧
      (analyzeBtnResume host (.resolved res) t1 t2 s).logList = s.logList ∧
      (analyzeBtnResume host (.resolved res) t1 t2 s).resultProb = s.resultProb ∧
      ((analyzeBtnResume host (.resolved res) t1 t2 s).liveDotClasses = s.liveDotClasses ∧
        (analyzeBtnResume host (.resolved res) t1 t2 s).liveStatusText = s.liveStatusText ∧
        (analyzeBtnResume host (.resolved res) t1 t2 s).lastPredictionTime =
          s.lastPredictionTime)) ∧
    (∀ data l p, res.json = some data → getProp data "label" = .ok l →
      getProp data "probability" = .ok (.number p) → (∀ str, l ≠ .string str) →
      (analyzeBtnResume host (.resolved res) t1 t2 s).errorText = s.errorText ∧
      (analyzeBtnResume host (.resolved res) t1 t2 s).errorTextHidden = s.errorTextHidden ∧
      (analyzeBtnResume host (.resolved res) t1 t2 s).resultLabel = "Non-violent" ∧
      history (analyzeBtnResume host (.resolved res) t1 t2 s) =
        { dotClass := "dot dot-safe"
          textClass := "log-label-safe"
          text := "Safe (" ++ toFixed host p 2 ++ ")"
          time := t2 } :: history s) := by
  refine ⟨?_, ?_, ?_⟩
  · rintro (hj | hj) <;>
      simp [analyzeBtnResume, tryBlock, hok, hj, presentResult, getProp, catchFinally,
        setLoading, showError]
  · rintro (hj | ⟨data, hj, hnum⟩)
    · simp [analyzeBtnResume, tryBlock, hok, hj, catchFinally, setLoading, showError]
    · cases hpr : getProp data "probability" with
      | error e =>
        simp [analyzeBtnResume, tryBlock, hok, hj, presentResult, hpr, catchFinally,
          setLoading, showError]
      | ok prob =>
        cases hlb : getProp data "label" with
        | error e =>
          simp [analyzeBtnResume, tryBlock, hok, hj, presentResult, hpr, hlb, catchFinally,
            setLoading, showError]
        | ok label =>
          cases prob with
          | number x => exact absurd hpr (hnum x)
          | _ =>
            simp [analyzeBtnResume, tryBlock, hok, hj, presentResult, hpr, hlb, callToFixed,
              catchFinally, setLoading, showError]
  · intro data l p hj hl hp hstr
    have hv : strictEqString l "violent" = false := by
      cases l <;> simp [strictEqString]
      exact absurd rfl (hstr _)
    rw [analyzeBtnResume_success host res data l p t1 t2 s hok hj hl hp]
    simp [setLoading, hv, history, newLogItem, filterMap_removeLogEmpty]

/-- Witness of C8, amended: the body without a probability, and the body without a label. -/
theorem success_status_unexpected_body_witness :
    (analyzeBtnResume sampleHost (.resolved probabilityMissingResponse) "10:00:01" "10:00:02"
        (analyzeBtnClick pickedPage)).errorText =
        "Failed to analyze video. Check backend and try again." ∧
      (analyzeBtnResume sampleHost (.resolved labelMissingResponse) "10:00:01" "10:00:02"
        (analyzeBtnClick pickedPage)).resultLabel = "Non-violent" :=
  ⟨((success_status_unexpected_body sampleHost (analyzeBtnClick pickedPage)
      probabilityMissingResponse "10:00:01" "10:00:02" rfl).2.1
      (Or.inr ⟨_, rfl, by intro x h; cases h⟩)).1,
    ((success_status_unexpected_body sampleHost (analyzeBtnClick pickedPage)
      labelMissingResponse "10:00:01" "10:00:02" rfl).2.2 _ .undefined
      (.finite false 1 (-1)) rfl rfl rfl (by intro str h; cases h)).2.2.1⟩

/-! ## Life cycle of the error message -/

/-- C10 as stated fails: after a failed request the message is showing, and a
file-selection event without a file (the picker dismissed) leaves it showing; an analysis
attempt without a selection does not empty it either. -/
theorem error_survives_dismissed_picker :
    (∃ s s1, run sampleHost freshPage failThenDismiss = some s ∧
      s.errorText = "Failed to analyze video. Check backend and try again." ∧
      step sampleHost s (.change none) = some s1 ∧
      s1.errorText = "Failed to analyze video. Check backend and try again." ∧
      s1.errorTextHidden = false) ∧
    (analyzeBtnClick freshPage).errorText ≠ "" :=
  ⟨⟨_, _, rfl, by decide, rfl, by decide, by decide⟩, by decide⟩

/-- C10, amended: the error message is empty (and hidden) immediately after a
file-selection event in which a file is chosen and immediately after the start of an
analysis attempt made with a file selected; a file-selection event without a file leaves
the message as it was.  In every state reached from an initial state, a non-empty error
message implies that an analysis attempt failed and that no file was chosen and no analysis
was started since. -/
theorem error_message_lifecycle (host : Host) :
    (∀ (s : Page) (f : File) (rest : List File),
      (videoInputChange (some (f :: rest)) s).errorText = "" ∧
      (videoInputChange (some (f :: rest)) s).errorTextHidden = true) ∧
    (∀ (s : Page) (f : File), s.selectedFile = some f →
      (analyzeBtnClick s).errorText = "" ∧ (analyzeBtnClick s).errorTextHidden = true) ∧
    (∀ s : Page,
      (videoInputChange none s).errorText = s.errorText ∧
      (videoInputChange (some []) s).errorText = s.errorText) ∧
    (∀ (s0 s : Page) (trace : List Event), Initial s0 → run host s0 trace = some s →
      s.errorText ≠ "" →
      ∃ pre e post s1, trace = pre ++ e :: post ∧ run host s0 pre = some s1 ∧
        attemptFails host s1 e = true ∧ ∀ x ∈ post, keepsError x = true) := by
  refine ⟨?_, ?_, ?_, ?_⟩
  · intro s f rest
    simp [videoInputChange, clearError]
  · intro s f hsel
    simp [analyzeBtnClick, hsel, setLoading, clearError]
  · intro s
    simp [videoInputChange]
  · intro s0 s trace hinit hrun hne
    rcases error_trace host trace s0 s hrun hne with ⟨hne0, _⟩ | h
    · exact absurd hinit.2.2.2.2.1 hne0
    · exact h

/-- Witness of C10, amended: the start of an analysis on the page where `clip1` was picked,
and the trace of a failed request followed by a dismissed picker. -/
theorem error_message_lifecycle_witness :
    (analyzeBtnClick pickedPage).errorText = "" ∧
      ∃ pre e post s1, failThenDismiss ++ [Event.change none] = pre ++ e :: post ∧
        run sampleHost freshPage pre = some s1 ∧ attemptFails sampleHost s1 e = true ∧
        ∀ x ∈ post, keepsError x = true :=
  ⟨((error_message_lifecycle sampleHost).2.1 pickedPage clip1 rfl).1,
    (error_message_lifecycle sampleHost).2.2.2 freshPage
      ((videoInputChange none
        (analyzeBtnResume sampleHost .rejected "10:00:01" "10:00:02"
          (analyzeBtnClick pickedPage))))
      (failThenDismiss ++ [Event.change none]) ⟨rfl, rfl, rfl, rfl, rfl, rfl⟩ rfl
      (by decide)⟩

end MobViolence
